import Mathlib

/-!
Formal model of the AWS cost dashboard pipeline in `src/main_aws_cost.py`.

The pipeline has four parts that the verification covers:
* the record normalizer `transform_data` (lines 56-73): flattens the raw
  Cost Explorer response into (Date, Service, Cost) rows and drops rows
  whose cost is not strictly positive;
* the series pivoter, the two lines of source 81-82 (repeated at 102-103):
  a `pivot_table` call with index Date, columns Service, values Cost and
  aggfunc sum followed by `fillna(0)`, then a `loc` selection that keeps
  only the columns with some nonzero entry — modelled by `pivot_dense`
  and `pivot`;
* the forecaster `predict_monthly_cost` (lines 118-123);
* the window derivation in `job` (lines 126-137).

Modelling conventions:
* dates are day ordinals (`Nat`): `pd.to_datetime` maps well-formed date
  strings to timestamps whose chronological order is the numeric order;
* costs are rationals (`ℚ`), the exact-arithmetic stand-in for the float
  amounts; the claims under study concern aggregation structure, not
  float rounding;
* a cost amount arrives already parsed (the claims under study do not
  concern the malformed-string path of the float conversion);
* `pd.DataFrame` applied to an empty row list yields a frame with no
  columns, so line 68 (the `to_datetime` assignment reading the Date
  column) raises a KeyError whenever the flattened row list is empty;
  `transform_data` therefore returns `Except.error "KeyError: Date"`
  exactly in that case;
* `pandas.pivot_table` sorts both the row index and the column index
  (grouping keys are sorted by groupby, default sort is on); Python
  string comparison is lexicographic on code points, embedded by `strLe`;
* the mean of an empty pandas series is NaN, and `predict_monthly_cost`
  propagates it into its printed estimate, so the forecaster result type
  has an explicit `nan` constructor; the Python function never raises on
  an empty frame.
-/

namespace AwsCost

/-- One flat row produced by the normalizer: the Date, Service, Cost dict
appended at line 65. -/
structure Obs where
  date : Nat
  service : String
  cost : ℚ
deriving DecidableEq

/-- One service group of a time-period entry: the first element of its
Keys and the parsed unblended-cost amount. -/
structure CostGroup where
  service : String
  amount : ℚ
deriving DecidableEq

/-- One entry of ResultsByTime: its TimePeriod start date and its service
groups. -/
structure ResultByTime where
  start : Nat
  groups : List CostGroup
deriving DecidableEq

/-- The raw Cost Explorer response, reduced to the fields the pipeline
reads. -/
structure RawCostResponse where
  resultsByTime : List ResultByTime
deriving DecidableEq

/-- The flat data list built by the two nested loops of lines 60-65. -/
def rawObservations (resp : RawCostResponse) : List Obs :=
  resp.resultsByTime.flatMap fun r =>
    r.groups.map fun g => { date := r.start, service := g.service, cost := g.amount }

/-- The normalizer `transform_data` (lines 56-73).  When the flattened row
list is empty, the data frame has no columns and line 68 raises a
KeyError reading the Date column; otherwise line 71 keeps exactly the
rows with positive cost. -/
def transform_data (resp : RawCostResponse) : Except String (List Obs) :=
  let data := rawObservations resp
  if data.isEmpty then Except.error "KeyError: Date"
  else Except.ok (data.filter fun o => decide (0 < o.cost))

/-- Lexicographic comparison of code-point lists, the order Python uses to
compare strings (and hence the order pandas sorts column labels in). -/
def charListLe : List Char → List Char → Bool
  | [], _ => true
  | _ :: _, [] => false
  | a :: as, b :: bs =>
    if a.toNat < b.toNat then true
    else if b.toNat < a.toNat then false
    else charListLe as bs

/-- Python string comparison, lexicographic on code points. -/
def strLe (a b : String) : Bool := charListLe a.data b.data

/-- Sorted list of the distinct dates in a key list: the row index that
`pivot_table` builds (groupby sorts its keys). -/
def sortedDates (l : List Nat) : List Nat :=
  List.insertionSort (fun a b => a ≤ b) l.dedup

/-- Sorted list of the distinct service names in a key list: the column
index that `pivot_table` builds (groupby sorts its keys, here by Python
string comparison). -/
def sortedServices (l : List String) : List String :=
  List.insertionSort (fun a b => strLe a b = true) l.dedup

/-- The aggregated cell value of the sum-aggregating `pivot_table` after
`fillna(0)`: the sum of the costs of every row carrying the given date
and service (zero when no row matches). -/
def agg (obs : List Obs) (d : Nat) (s : String) : ℚ :=
  ((obs.filter fun o => decide (o.date = d ∧ o.service = s)).map Obs.cost).sum

/-- A dense pivoted table: row index, column index, and the value at each
(date, service) cell. -/
structure PivotedTable where
  dates : List Nat
  services : List String
  cell : Nat → String → ℚ

/-- Line 81: the sum-aggregating `pivot_table` over Date and Service
followed by `fillna(0)` — the dense table before the all-zero-column
drop. -/
def pivot_dense (obs : List Obs) : PivotedTable :=
  { dates := sortedDates (obs.map Obs.date)
    services := sortedServices (obs.map Obs.service)
    cell := fun d s => agg obs d s }

/-- Line 82: the `loc` selection keeping only the columns that have some
nonzero entry. -/
def dropAllZeroColumns (t : PivotedTable) : PivotedTable :=
  { t with services := t.services.filter fun s => decide (∃ d ∈ t.dates, t.cell d s ≠ 0) }

/-- The full pivoter of lines 81-82 (and identically lines 102-103). -/
def pivot (obs : List Obs) : PivotedTable :=
  dropAllZeroColumns (pivot_dense obs)

/-- The per-date total of the flat frame: one value of the Cost column of
the frame grouped by Date and summed (line 119). -/
def dateTotal (obs : List Obs) (d : Nat) : ℚ :=
  ((obs.filter fun o => decide (o.date = d)).map Obs.cost).sum

/-- The total of one row of a pivoted table, summed across its service
columns. -/
def rowTotal (t : PivotedTable) (d : Nat) : ℚ :=
  (t.services.map fun s => t.cell d s).sum

/-- Outcome of `predict_monthly_cost`: a numeric estimate, or the NaN that
the mean of an empty series yields.  The Python function never raises. -/
inductive PredictResult where
  | estimate (q : ℚ)
  | nan
deriving DecidableEq

/-- The forecaster `predict_monthly_cost` (lines 118-123): the mean of the
per-date Cost totals of the flat frame, multiplied by the number of days
in the month.  The groupby keys are the distinct dates of the flat frame;
the mean over zero groups is NaN.  The days-in-month value (taken from
the current timestamp in the source) is passed as a parameter. -/
def predict_monthly_cost (df : List Obs) (days_in_month : Nat) : PredictResult :=
  let dates := sortedDates (df.map Obs.date)
  if dates.isEmpty then PredictResult.nan
  else PredictResult.estimate
    (((dates.map fun d => dateTotal df d).sum / dates.length) * days_in_month)

/-- Error kind of the forecaster contract as the specification states
it. -/
inductive ForecastError where
  | InsufficientData
deriving DecidableEq

/-- Spec-side forecaster, stated for the refinement comparison only.  It
follows the words of the specification, section 4.3: per row of the daily
pivoted series, total the cost across all service columns; take the
arithmetic mean of these per-day totals over all rows; multiply by the
number of days in the target month; fail with `InsufficientData` when the
series has zero rows. -/
def forecast_month (t : PivotedTable) (days_in_target_month : Nat) : Except ForecastError ℚ :=
  if t.dates.isEmpty then Except.error ForecastError.InsufficientData
  else Except.ok
    (((t.dates.map fun d => rowTotal t d).sum / t.dates.length) * days_in_target_month)

/-- Granularity values passed to `get_cost_and_usage`. -/
inductive Granularity where
  | DAILY
  | MONTHLY
deriving DecidableEq

/-- One `get_cost_and_usage` request: the TimePeriod bounds (day ordinals,
so subtracting n models a timedelta of n days) and the granularity. -/
structure CostRequest where
  start : Int
  stop : Int
  granularity : Granularity
deriving DecidableEq

/-- The window derivation of `job` (lines 126-137): today, six months ago
(today minus a 180-day timedelta), seven days ago (today minus a 7-day
timedelta), then a DAILY request over [seven days ago, today] and a
MONTHLY request over [six months ago, today].  Returned as (daily
request, monthly request). -/
def job_requests (as_of : Int) : CostRequest × CostRequest :=
  let today := as_of
  let six_months_ago := today - 180
  let seven_days_ago := today - 7
  ( { start := seven_days_ago, stop := today, granularity := Granularity.DAILY }
  , { start := six_months_ago, stop := today, granularity := Granularity.MONTHLY } )

/-- First-occurrence order of the service names in an observation list:
the insertion order from the raw data that the specification ascribes to
the column index. -/
def firstOccurrences (l : List String) : List String :=
  l.foldl (fun acc s => if s ∈ acc then acc else acc ++ [s]) []

/-- Scenario A raw response: two days, each with one service costing
10.00. -/
def scenarioA_raw : RawCostResponse :=
  { resultsByTime :=
    [ { start := 1, groups := [ { service := "AmazonEC2", amount := 10 } ] }
    , { start := 2, groups := [ { service := "AmazonEC2", amount := 10 } ] } ] }

/-- The two observations the normalizer yields on scenario A. -/
def scenarioA_obs : List Obs :=
  [ { date := 1, service := "AmazonEC2", cost := 10 }
  , { date := 2, service := "AmazonEC2", cost := 10 } ]

/-- Scenario B raw response: one service costs exactly 0.00 on every day,
another has positive cost. -/
def scenarioB_raw : RawCostResponse :=
  { resultsByTime :=
    [ { start := 1
        groups := [ { service := "AmazonEC2", amount := 5 }
                  , { service := "AWSDataTransfer", amount := 0 } ] }
    , { start := 2
        groups := [ { service := "AmazonEC2", amount := 5 }
                  , { service := "AWSDataTransfer", amount := 0 } ] } ] }

/-- What the normalizer yields on scenario B: the zero-cost service is
filtered out. -/
def scenarioB_obs : List Obs :=
  [ { date := 1, service := "AmazonEC2", cost := 5 }
  , { date := 2, service := "AmazonEC2", cost := 5 } ]

/-- A raw response with a single group of cost zero: the flat row list is
nonempty but line 71 filters everything out. -/
def zeroCost_raw : RawCostResponse :=
  { resultsByTime := [ { start := 1, groups := [ { service := "AmazonEC2", amount := 0 } ] } ] }

/-- An observation list whose first-occurrence service order differs from
the lexicographic order: AmazonS3 is seen first but sorts after AWSLambda
(uppercase W precedes lowercase m in code points). -/
def unsortedServices_obs : List Obs :=
  [ { date := 1, service := "AmazonS3", cost := 1 }
  , { date := 1, service := "AWSLambda", cost := 2 } ]

/-! Helper lemmas about the embedded operations. -/

lemma charListLe_total : ∀ as bs : List Char, charListLe as bs = true ∨ charListLe bs as = true := by
  intro as
  induction as with
  | nil => intro bs; left; simp [charListLe]
  | cons a as ih =>
    intro bs
    cases bs with
    | nil => right; simp [charListLe]
    | cons b bs =>
      rcases Nat.lt_trichotomy a.toNat b.toNat with h | h | h
      · left; simp [charListLe, h]
      · rcases ih bs with h2 | h2
        · left; simp [charListLe, h, h2]
        · right; simp [charListLe, h, h2]
      · right; simp [charListLe, h]

lemma charListLe_trans : ∀ as bs cs : List Char,
    charListLe as bs = true → charListLe bs cs = true → charListLe as cs = true := by
  intro as
  induction as with
  | nil => intro bs cs _ _; simp [charListLe]
  | cons a as ih =>
    intro bs cs h1 h2
    cases bs with
    | nil => simp [charListLe] at h1
    | cons b bs =>
      cases cs with
      | nil => simp [charListLe] at h2
      | cons c cs =>
        by_cases hab : a.toNat < b.toNat
        · by_cases hbc : b.toNat < c.toNat
          · have : a.toNat < c.toNat := Nat.lt_trans hab hbc
            simp [charListLe, this]
          · by_cases hcb : c.toNat < b.toNat
            · simp [charListLe, hbc, hcb] at h2
            · have hbc2 : b.toNat = c.toNat :=
                Nat.le_antisymm (Nat.le_of_not_lt hcb) (Nat.le_of_not_lt hbc)
              have : a.toNat < c.toNat := hbc2 ▸ hab
              simp [charListLe, this]
        · by_cases hba : b.toNat < a.toNat
          · simp [charListLe, hab, hba] at h1
          · have hab2 : a.toNat = b.toNat :=
              Nat.le_antisymm (Nat.le_of_not_lt hba) (Nat.le_of_not_lt hab)
            simp [charListLe, hab, hba] at h1
            by_cases hbc : b.toNat < c.toNat
            · have : a.toNat < c.toNat := hab2 ▸ hbc
              simp [charListLe, this]
            · by_cases hcb : c.toNat < b.toNat
              · simp [charListLe, hbc, hcb] at h2
              · have hbc2 : b.toNat = c.toNat :=
                  Nat.le_antisymm (Nat.le_of_not_lt hcb) (Nat.le_of_not_lt hbc)
                simp [charListLe, hbc, hcb] at h2
                have hac : ¬ a.toNat < c.toNat := by omega
                have hca : ¬ c.toNat < a.toNat := by omega
                simp [charListLe, hac, hca]
                exact ih bs cs h1 h2

instance : IsTotal String (fun a b => strLe a b = true) :=
  ⟨fun a b => charListLe_total a.data b.data⟩

instance : IsTrans String (fun a b => strLe a b = true) :=
  ⟨fun a b c => charListLe_trans a.data b.data c.data⟩

lemma mem_sortedDates {d : Nat} {l : List Nat} : d ∈ sortedDates l ↔ d ∈ l := by
  unfold sortedDates
  rw [(List.perm_insertionSort _ _).mem_iff, List.mem_dedup]

lemma mem_sortedServices {s : String} {l : List String} : s ∈ sortedServices l ↔ s ∈ l := by
  unfold sortedServices
  rw [(List.perm_insertionSort _ _).mem_iff, List.mem_dedup]

lemma nodup_sortedDates (l : List Nat) : (sortedDates l).Nodup :=
  (List.perm_insertionSort _ _).nodup_iff.mpr l.nodup_dedup

lemma nodup_sortedServices (l : List String) : (sortedServices l).Nodup :=
  (List.perm_insertionSort _ _).nodup_iff.mpr l.nodup_dedup

lemma sorted_sortedDates (l : List Nat) : (sortedDates l).Sorted (fun a b => a ≤ b) :=
  List.sorted_insertionSort _ _

lemma sorted_sortedServices (l : List String) :
    (sortedServices l).Sorted (fun a b => strLe a b = true) :=
  List.sorted_insertionSort _ _

lemma sortedDates_eq_nil {l : List Nat} : sortedDates l = [] ↔ l = [] := by
  constructor
  · intro h
    have hp := (List.perm_insertionSort (fun a b : Nat => a ≤ b) l.dedup).symm
    rw [sortedDates] at h
    rw [h] at hp
    exact List.dedup_eq_nil l |>.mp hp.symm.nil_eq.symm
  · intro h; subst h; rfl

lemma agg_cons (o : Obs) (obs : List Obs) (d : Nat) (s : String) :
    agg (o :: obs) d s = (if o.date = d ∧ o.service = s then o.cost else 0) + agg obs d s := by
  unfold agg
  rw [List.filter_cons]
  split
  · rename_i h
    rw [List.map_cons, List.sum_cons]
    simp only [decide_eq_true_eq] at h
    rw [if_pos h]
  · rename_i h
    simp only [decide_eq_true_eq] at h
    rw [if_neg h, zero_add]

lemma sum_ite_service (o : Obs) (d : Nat) :
    ∀ S : List String, S.Nodup →
      (S.map fun s => if o.date = d ∧ o.service = s then o.cost else 0).sum
        = if o.date = d ∧ o.service ∈ S then o.cost else 0 := by
  intro S
  induction S with
  | nil => intro _; simp
  | cons s S ih =>
    intro hnd
    rw [List.nodup_cons] at hnd
    rw [List.map_cons, List.sum_cons, ih hnd.2]
    by_cases hd : o.date = d
    · by_cases hs : o.service = s
      · have hns : o.service ∉ S := hs ▸ hnd.1
        rw [if_pos ⟨hd, hs⟩, if_neg (fun h => hns h.2),
          if_pos ⟨hd, List.mem_cons.mpr (Or.inl hs)⟩, add_zero]
      · by_cases hm : o.service ∈ S
        · rw [if_neg (fun h => hs h.2), if_pos ⟨hd, hm⟩,
            if_pos ⟨hd, List.mem_cons.mpr (Or.inr hm)⟩, zero_add]
        · have hx : o.service ∉ s :: S := by
            rw [List.mem_cons]; rintro (h | h); exact hs h; exact hm h
          rw [if_neg (fun h => hs h.2), if_neg (fun h => hm h.2),
            if_neg (fun h => hx h.2), zero_add]
    · simp [hd]

lemma sum_agg_eq (d : Nat) (S : List String) (hS : S.Nodup) :
    ∀ obs : List Obs,
      (S.map fun s => agg obs d s).sum
        = ((obs.filter fun o => decide (o.date = d ∧ o.service ∈ S)).map Obs.cost).sum := by
  intro obs
  induction obs with
  | nil =>
    simp [agg]
  | cons o obs ih =>
    have hfun : (fun s => agg (o :: obs) d s)
        = fun s => (if o.date = d ∧ o.service = s then o.cost else 0) + agg obs d s := by
      funext s
      rw [agg_cons]
    have step : (S.map fun s => agg (o :: obs) d s).sum
        = (S.map fun s => if o.date = d ∧ o.service = s then o.cost else 0).sum
          + (S.map fun s => agg obs d s).sum := by
      rw [hfun, List.sum_map_add]
    rw [step, sum_ite_service o d S hS, ih]
    by_cases h : o.date = d ∧ o.service ∈ S
    · rw [if_pos h, List.filter_cons_of_pos (by simpa using h), List.map_cons, List.sum_cons]
    · rw [if_neg h, List.filter_cons_of_neg (by simpa using h), zero_add]

lemma rowTotal_pivot_dense (obs : List Obs) (d : Nat) :
    rowTotal (pivot_dense obs) d = dateTotal obs d := by
  have hnd := nodup_sortedServices (obs.map Obs.service)
  have h := sum_agg_eq d (sortedServices (obs.map Obs.service)) hnd obs
  have hfeq : (obs.filter fun o =>
        decide (o.date = d ∧ o.service ∈ sortedServices (obs.map Obs.service)))
      = obs.filter fun o => decide (o.date = d) := by
    apply List.filter_congr
    intro o ho
    have hs : o.service ∈ sortedServices (obs.map Obs.service) :=
      mem_sortedServices.mpr (List.mem_map_of_mem Obs.service ho)
    simp [hs]
  unfold rowTotal pivot_dense
  simp only
  rw [h, hfeq]
  rfl

lemma sum_map_filter_eq {α : Type} (p : α → Bool) (f : α → ℚ) :
    ∀ S : List α, (∀ s ∈ S, p s = false → f s = 0) →
      ((S.filter p).map f).sum = (S.map f).sum := by
  intro S
  induction S with
  | nil => intro _; rfl
  | cons s S ih =>
    intro h
    cases hps : p s with
    | true =>
      rw [List.filter_cons_of_pos hps, List.map_cons, List.sum_cons, List.map_cons, List.sum_cons,
        ih fun a ha hpa => h a (List.mem_cons_of_mem s ha) hpa]
    | false =>
      rw [List.filter_cons_of_neg (by simp [hps]), List.map_cons, List.sum_cons,
        h s (List.mem_cons_self s S) hps, zero_add,
        ih fun a ha hpa => h a (List.mem_cons_of_mem s ha) hpa]

lemma rowTotal_drop (t : PivotedTable) (d : Nat) (hd : d ∈ t.dates) :
    rowTotal (dropAllZeroColumns t) d = rowTotal t d := by
  unfold rowTotal dropAllZeroColumns
  simp only
  apply sum_map_filter_eq
  intro s _ hs
  have h2 := of_decide_eq_false hs
  push_neg at h2
  exact h2 d hd

lemma pivot_dates (obs : List Obs) : (pivot obs).dates = sortedDates (obs.map Obs.date) := rfl

lemma pivot_cell (obs : List Obs) (d : Nat) (s : String) : (pivot obs).cell d s = agg obs d s := rfl

lemma rowTotal_pivot (obs : List Obs) (d : Nat) (hd : d ∈ sortedDates (obs.map Obs.date)) :
    rowTotal (pivot obs) d = dateTotal obs d := by
  rw [pivot, rowTotal_drop _ _ hd, rowTotal_pivot_dense]

/-! Claim theorems. -/

/-- C1: the forecaster computes the arithmetic mean of the per-date total
cost over all rows of the daily series and multiplies it by the number of
days in the target month; on scenario A (two dates, one service costing
10.00 each) the normalizer yields the two observations, the pivoted table
is 2 rows by 1 column with values [10.00, 10.00], and the 30-day forecast
equals 300.00. -/
theorem spec_C1 :
    (∀ (df : List Obs) (d : Nat), df ≠ [] →
      predict_monthly_cost df d = PredictResult.estimate
        ((((pivot df).dates.map fun x => rowTotal (pivot df) x).sum
          / ((pivot df).dates.length : ℚ)) * d))
    ∧ transform_data scenarioA_raw = Except.ok scenarioA_obs
    ∧ (pivot scenarioA_obs).dates = [1, 2]
    ∧ (pivot scenarioA_obs).services = ["AmazonEC2"]
    ∧ (pivot scenarioA_obs).cell 1 ("AmazonEC2") = 10
    ∧ (pivot scenarioA_obs).cell 2 ("AmazonEC2") = 10
    ∧ predict_monthly_cost scenarioA_obs 30 = PredictResult.estimate 300 := by
  refine ⟨?_, rfl, rfl, ?_, ?_, ?_, ?_⟩
  · intro df d h
    have hne : (sortedDates (df.map Obs.date)).isEmpty = false := by
      cases hb : (sortedDates (df.map Obs.date)).isEmpty
      · rfl
      · exact absurd (List.map_eq_nil_iff.mp (sortedDates_eq_nil.mp (List.isEmpty_iff.mp hb))) h
    have hsum : ((sortedDates (df.map Obs.date)).map fun x => rowTotal (pivot df) x).sum
        = ((sortedDates (df.map Obs.date)).map fun x => dateTotal df x).sum := by
      congr 1
      apply List.map_congr_left
      intro x hx
      exact rowTotal_pivot df x hx
    simp [predict_monthly_cost, hne, pivot_dates, hsum]
  · have h1 : agg scenarioA_obs 1 ("AmazonEC2") = 10 := by simp [agg, scenarioA_obs]
    have hs : sortedServices (scenarioA_obs.map Obs.service) = ["AmazonEC2"] := rfl
    have hd : sortedDates (scenarioA_obs.map Obs.date) = [1, 2] := rfl
    simp [pivot, dropAllZeroColumns, pivot_dense, hs, hd, h1]
  · show agg scenarioA_obs 1 ("AmazonEC2") = 10
    simp [agg, scenarioA_obs]
  · show agg scenarioA_obs 2 ("AmazonEC2") = 10
    simp [agg, scenarioA_obs]
  · have hd : sortedDates (scenarioA_obs.map Obs.date) = [1, 2] := rfl
    have h1 : dateTotal scenarioA_obs 1 = 10 := by simp [dateTotal, scenarioA_obs]
    have h2 : dateTotal scenarioA_obs 2 = 10 := by simp [dateTotal, scenarioA_obs]
    rw [predict_monthly_cost]
    rw [hd]
    simp [h1, h2]
    norm_num

/-- C1 witness: the universally quantified part of `spec_C1`, applied to
the scenario A observations and 30 days, its nonemptiness hypothesis
discharged by evaluation. -/
theorem spec_C1_witness :
    scenarioA_obs ≠ []
    ∧ predict_monthly_cost scenarioA_obs 30 = PredictResult.estimate
        ((((pivot scenarioA_obs).dates.map fun x => rowTotal (pivot scenarioA_obs) x).sum
          / (((pivot scenarioA_obs).dates.length : ℚ))) * 30) :=
  ⟨by decide, spec_C1.1 scenarioA_obs 30 (by decide)⟩

/-- C2: for every observation sequence, the dense pivoted table of line 81
has, at each (date, service) cell, the sum of the costs of the matching
observations (duplicates summed); every pair present in the observation
set has a cell; every unmatched cell is zero; and the row index is the
sorted set of distinct dates present. -/
theorem spec_C2 (obs : List Obs) :
    (∀ (d : Nat) (s : String), (pivot_dense obs).cell d s
        = ((obs.filter fun o => decide (o.date = d ∧ o.service = s)).map Obs.cost).sum)
    ∧ (∀ o ∈ obs, o.date ∈ (pivot_dense obs).dates ∧ o.service ∈ (pivot_dense obs).services)
    ∧ (∀ (d : Nat) (s : String), (∀ o ∈ obs, ¬(o.date = d ∧ o.service = s)) →
        (pivot_dense obs).cell d s = 0)
    ∧ ((pivot_dense obs).dates).Sorted (fun a b => a ≤ b)
    ∧ ((pivot_dense obs).dates).Nodup
    ∧ (∀ d : Nat, d ∈ (pivot_dense obs).dates ↔ d ∈ obs.map Obs.date) := by
  refine ⟨fun d s => rfl, ?_, ?_, sorted_sortedDates _, nodup_sortedDates _,
    fun d => mem_sortedDates⟩
  · intro o ho
    exact ⟨mem_sortedDates.mpr (List.mem_map_of_mem Obs.date ho),
      mem_sortedServices.mpr (List.mem_map_of_mem Obs.service ho)⟩
  · intro d s h
    show agg obs d s = 0
    unfold agg
    have hf : (obs.filter fun o => decide (o.date = d ∧ o.service = s)) = [] := by
      rw [List.filter_eq_nil_iff]
      intro o ho
      simp only [decide_eq_true_eq]
      exact h o ho
    rw [hf]
    rfl

/-- C2 witness: the zero-fill part of `spec_C2` applied to the scenario A
observations at a cell no observation backs. -/
theorem spec_C2_witness :
    (∀ o ∈ scenarioA_obs, ¬(o.date = 9 ∧ o.service = "AmazonS3"))
    ∧ (pivot_dense scenarioA_obs).cell 9 ("AmazonS3") = 0 :=
  ⟨by decide, (spec_C2 scenarioA_obs).2.2.1 9 ("AmazonS3") (by decide)⟩

/-- C3: for every observation sequence the pivoted table after the
all-zero-column drop has no column that is zero in every row; and in
scenario B the service whose cost is 0.00 on every date is absent from
the final table. -/
theorem spec_C3 :
    (∀ (obs : List Obs), ∀ s ∈ (pivot obs).services,
      ∃ d ∈ (pivot obs).dates, (pivot obs).cell d s ≠ 0)
    ∧ transform_data scenarioB_raw = Except.ok scenarioB_obs
    ∧ "AWSDataTransfer" ∉ (pivot scenarioB_obs).services
    ∧ (pivot scenarioB_obs).services = ["AmazonEC2"] := by
  have hserv : (pivot scenarioB_obs).services = ["AmazonEC2"] := by
    have h1 : agg scenarioB_obs 1 ("AmazonEC2") = 5 := by simp [agg, scenarioB_obs]
    have hs : sortedServices (scenarioB_obs.map Obs.service) = ["AmazonEC2"] := rfl
    have hd : sortedDates (scenarioB_obs.map Obs.date) = [1, 2] := rfl
    simp [pivot, dropAllZeroColumns, pivot_dense, hs, hd, h1]
  refine ⟨?_, rfl, ?_, hserv⟩
  · intro obs s hs
    have hs2 : s ∈ (pivot_dense obs).services.filter
        (fun s => decide (∃ d ∈ (pivot_dense obs).dates, (pivot_dense obs).cell d s ≠ 0)) := hs
    exact of_decide_eq_true (List.mem_filter.mp hs2).2
  · rw [hserv]
    decide

/-- C3 witness: the no-all-zero-column part of `spec_C3` applied to the
scenario B table at its remaining column. -/
theorem spec_C3_witness :
    "AmazonEC2" ∈ (pivot scenarioB_obs).services
    ∧ ∃ d ∈ (pivot scenarioB_obs).dates, (pivot scenarioB_obs).cell d ("AmazonEC2") ≠ 0 := by
  have hmem : "AmazonEC2" ∈ (pivot scenarioB_obs).services := by
    rw [spec_C3.2.2.2]
    exact List.mem_cons_self _ _
  exact ⟨hmem, spec_C3.1 scenarioB_obs ("AmazonEC2") hmem⟩

/-- C4: every observation the normalizer outputs has strictly positive
cost, and the output is exactly the flattened rows whose parsed cost is
positive. -/
theorem spec_C4 (resp : RawCostResponse) (l : List Obs)
    (h : transform_data resp = Except.ok l) :
    l = (rawObservations resp).filter (fun o => decide (0 < o.cost))
    ∧ ∀ o ∈ l, 0 < o.cost := by
  simp only [transform_data] at h
  split at h
  · exact absurd h (by simp)
  · cases h
    constructor
    · rfl
    · intro o ho
      exact of_decide_eq_true (List.mem_filter.mp ho).2

/-- C4 witness: `spec_C4` applied to the scenario A response, the
normalization hypothesis discharged by evaluation. -/
theorem spec_C4_witness :
    transform_data scenarioA_raw = Except.ok scenarioA_obs
    ∧ (scenarioA_obs = (rawObservations scenarioA_raw).filter (fun o => decide (0 < o.cost))
      ∧ ∀ o ∈ scenarioA_obs, 0 < o.cost) :=
  ⟨rfl, spec_C4 scenarioA_raw scenarioA_obs rfl⟩

/-- C5 counterexample: on a raw response with no time-period entries the
flattened row list is empty, the data frame has no columns, and line 68
raises a KeyError reading the Date column — the normalizer fails instead
of returning an empty sequence. -/
theorem spec_C5_cex :
    transform_data { resultsByTime := [] } = Except.error "KeyError: Date" := rfl

/-- C5 (amended): for every raw response that flattens to at least one
row, if every flattened cost is nonpositive the normalizer returns the
empty observation sequence without failing; a response with no rows at
all instead fails with the KeyError of `spec_C5_cex`. -/
theorem spec_C5 (resp : RawCostResponse) (hne : rawObservations resp ≠ [])
    (hnp : ∀ o ∈ rawObservations resp, o.cost ≤ 0) :
    transform_data resp = Except.ok [] := by
  have he : (rawObservations resp).isEmpty = false := by
    cases hb : (rawObservations resp).isEmpty
    · rfl
    · exact absurd (List.isEmpty_iff.mp hb) hne
  have hf : ((rawObservations resp).filter fun o => decide (0 < o.cost)) = [] := by
    rw [List.filter_eq_nil_iff]
    intro o ho
    simp only [decide_eq_true_eq]
    exact not_lt.mpr (hnp o ho)
  simp [transform_data, he, hf]

/-- C5 witness: `spec_C5` applied to the single-group zero-cost response,
both hypotheses discharged by evaluation. -/
theorem spec_C5_witness :
    rawObservations zeroCost_raw ≠ []
    ∧ (∀ o ∈ rawObservations zeroCost_raw, o.cost ≤ 0)
    ∧ transform_data zeroCost_raw = Except.ok [] :=
  ⟨by decide, by decide, spec_C5 zeroCost_raw (by decide) (by decide)⟩

/-- C6 counterexample: on the zero-row daily series the forecaster
returns the NaN of the empty mean (the source prints the estimate as
nan); it does not fail with an InsufficientData error. -/
theorem spec_C6_cex : predict_monthly_cost [] 30 = PredictResult.nan := rfl

/-- C6 (amended): for the daily series with zero rows and any
days-in-month value, the forecaster completes and returns NaN — not zero,
not an InsufficientData failure. -/
theorem spec_C6 (days_in_month : Nat) :
    predict_monthly_cost [] days_in_month = PredictResult.nan := rfl

/-- C7 counterexample: on an observation list whose first service by
insertion order is AmazonS3, the pivoted table orders columns
lexicographically (AWSLambda first), not by insertion order. -/
theorem spec_C7_cex :
    (pivot unsortedServices_obs).services = ["AWSLambda", "AmazonS3"]
    ∧ firstOccurrences (unsortedServices_obs.map Obs.service) = ["AmazonS3", "AWSLambda"]
    ∧ (pivot unsortedServices_obs).services
        ≠ firstOccurrences (unsortedServices_obs.map Obs.service) := by
  have h1 : agg unsortedServices_obs 1 ("AWSLambda") = 2 := by
    simp [agg, unsortedServices_obs]
  have h2 : agg unsortedServices_obs 1 ("AmazonS3") = 1 := by
    simp [agg, unsortedServices_obs]
  have hs : sortedServices (unsortedServices_obs.map Obs.service)
      = ["AWSLambda", "AmazonS3"] := rfl
  have hd : sortedDates (unsortedServices_obs.map Obs.date) = [1] := rfl
  have hserv : (pivot unsortedServices_obs).services = ["AWSLambda", "AmazonS3"] := by
    simp [pivot, dropAllZeroColumns, pivot_dense, hs, hd, h1, h2]
  refine ⟨hserv, rfl, ?_⟩
  rw [hserv]
  decide

/-- C7 (amended): for every observation sequence the service columns of
the final pivoted table are sorted by Python string comparison
(lexicographic on code points), and the rows chronologically; column
order is not the insertion order of the raw data. -/
theorem spec_C7 (obs : List Obs) :
    ((pivot obs).services).Sorted (fun a b => strLe a b = true)
    ∧ ((pivot obs).dates).Sorted (fun a b => a ≤ b) :=
  ⟨List.Pairwise.sublist (List.filter_sublist _) (sorted_sortedServices (obs.map Obs.service)),
    sorted_sortedDates (obs.map Obs.date)⟩

/-- C8: forecast linearity — on a nonempty daily frame the d-day forecast
is the 1-day forecast scaled by d. -/
theorem spec_C8 (df : List Obs) (d : Nat) (hdf : df ≠ []) (_hpos : 0 < d) :
    ∃ q : ℚ, predict_monthly_cost df 1 = PredictResult.estimate q
      ∧ predict_monthly_cost df d = PredictResult.estimate (q * d) := by
  have hne : (sortedDates (df.map Obs.date)).isEmpty = false := by
    cases hb : (sortedDates (df.map Obs.date)).isEmpty
    · rfl
    · exact absurd (List.map_eq_nil_iff.mp (sortedDates_eq_nil.mp (List.isEmpty_iff.mp hb))) hdf
  refine ⟨((sortedDates (df.map Obs.date)).map fun x => dateTotal df x).sum
      / ((sortedDates (df.map Obs.date)).length : ℚ), ?_, ?_⟩
  · simp [predict_monthly_cost, hne]
  · simp [predict_monthly_cost, hne]

/-- C8 witness: `spec_C8` applied to the scenario A observations with
d = 30, hypotheses discharged by evaluation. -/
theorem spec_C8_witness :
    scenarioA_obs ≠ [] ∧ 0 < 30
    ∧ ∃ q : ℚ, predict_monthly_cost scenarioA_obs 1 = PredictResult.estimate q
      ∧ predict_monthly_cost scenarioA_obs 30 = PredictResult.estimate (q * 30) :=
  ⟨by decide, by decide, spec_C8 scenarioA_obs 30 (by decide) (by decide)⟩

/-- C9: for every as-of date the orchestrator requests the daily window
[as_of - 7 days, as_of] at DAILY granularity and the monthly window
[as_of - 180 days, as_of] at MONTHLY granularity. -/
theorem spec_C9 (as_of : Int) :
    job_requests as_of
      = ( { start := as_of - 7, stop := as_of, granularity := Granularity.DAILY }
        , { start := as_of - 180, stop := as_of, granularity := Granularity.MONTHLY } ) := rfl

/-- C10: the forecast computed from the flat normalized list (grouping by
date and summing, as the code does) agrees with the spec-side forecast
over the per-row totals of the final pivoted table: both are NaN-or-fail
together on an empty series and otherwise produce the same estimate. -/
theorem spec_C10 (resp : RawCostResponse) (l : List Obs)
    (_hnorm : transform_data resp = Except.ok l) (days : Nat) :
    (predict_monthly_cost l days = PredictResult.nan
      ∧ forecast_month (pivot l) days = Except.error ForecastError.InsufficientData)
    ∨ ∃ q : ℚ, predict_monthly_cost l days = PredictResult.estimate q
      ∧ forecast_month (pivot l) days = Except.ok q := by
  by_cases hb : (sortedDates (l.map Obs.date)).isEmpty
  · left
    constructor
    · simp [predict_monthly_cost, hb]
    · simp [forecast_month, pivot_dates, hb]
  · right
    have hsum : ((sortedDates (l.map Obs.date)).map fun x => rowTotal (pivot l) x).sum
        = ((sortedDates (l.map Obs.date)).map fun x => dateTotal l x).sum := by
      congr 1
      apply List.map_congr_left
      intro x hx
      exact rowTotal_pivot l x hx
    refine ⟨((sortedDates (l.map Obs.date)).map fun x => dateTotal l x).sum
        / ((sortedDates (l.map Obs.date)).length : ℚ) * days, ?_, ?_⟩
    · simp [predict_monthly_cost, hb]
    · simp [forecast_month, pivot_dates, hb, hsum]

/-- C10 witness: `spec_C10` applied to the scenario B response and 30
days, the normalization hypothesis discharged by evaluation. -/
theorem spec_C10_witness :
    transform_data scenarioB_raw = Except.ok scenarioB_obs
    ∧ ((predict_monthly_cost scenarioB_obs 30 = PredictResult.nan
        ∧ forecast_month (pivot scenarioB_obs) 30 = Except.error ForecastError.InsufficientData)
      ∨ ∃ q : ℚ, predict_monthly_cost scenarioB_obs 30 = PredictResult.estimate q
        ∧ forecast_month (pivot scenarioB_obs) 30 = Except.ok q) :=
  ⟨rfl, spec_C10 scenarioB_raw scenarioB_obs rfl 30⟩

end AwsCost
